import Mathlib

/-!
Shallow embedding of `mindnlp/transformers/models/funnel/modeling_funnel.py`
(the Funnel Transformer model).  Sequences along the length axis are modelled
as lists of rationals, one batch row and feature column at a time (all the
modelled operations act independently along the batch and feature axes);
boolean and 0/1 matrices as lists of lists; and the four-dimensional attention
score tensors as functions from the two trailing indices to entries, one
(batch, head) slice at a time, with row-major reshapes becoming index
arithmetic.
-/

/-- `F.avg_pool2d` with kernel `(2, 1)`, stride `(2, 1)` and `ceil_mode=True`
along the sequence axis: consecutive pairs are averaged, and a trailing lone
element (a window clipped at the right edge) is averaged over its single valid
position. -/
def avgPool2 : List ℚ → List ℚ
  | [] => []
  | [a] => [a]
  | a :: b :: rest => (a + b) / 2 :: avgPool2 rest

/-- `FunnelAttentionStructure.pool_tensor` with `mode="mean"` and `stride=2`
on one scalar sequence.  Following the source: when `separate_cls`, the first
entry is concatenated in front of the sequence (whose last entry is first
dropped when `truncate_seq`), then the windowed mean runs. -/
def pool_tensor_mean (separate_cls truncate_seq : Bool) (t : List ℚ) : List ℚ :=
  let t2 := if separate_cls then t.take 1 ++ (if truncate_seq then t.dropLast else t) else t
  avgPool2 t2

/-- Nested argument of `pool_tensor`: either a single tensor (one scalar
sequence) or a tuple/list of such arguments. -/
inductive PTensor : Type where
  | leaf : List ℚ → PTensor
  | seq : List PTensor → PTensor

/-- Collects a list of optional results, failing when any element fails (the
Python generator inside `type(tensor)(...)` forces every element). -/
def collectOptions : List (Option PTensor) → Option (List PTensor)
  | [] => some []
  | none :: _ => none
  | some x :: rest => (collectOptions rest).map (fun l => x :: l)

/-- `FunnelAttentionStructure.pool_tensor` on a possibly nested argument, with
explicit recursion fuel standing for Python's bounded call stack (`none` means
the fuel ran out, as a `RecursionError` would).  The tuple/list branch mirrors
the source line exactly: it recurses on the WHOLE sequence `tensor` once per
element (`self.pool_tensor(tensor, mode=mode, stride=stride) for x in
tensor`), not on the elements `x`. -/
def pool_tensor_steps (separate_cls truncate_seq : Bool) : Nat → PTensor → Option PTensor
  | 0, _ => none
  | _ + 1, .leaf t => some (.leaf (pool_tensor_mean separate_cls truncate_seq t))
  | fuel + 1, .seq ts =>
      (collectOptions (ts.map (fun _ =>
        pool_tensor_steps separate_cls truncate_seq fuel (.seq ts)))).map .seq

/-- `FunnelAttentionStructure.token_type_ids_to_mat` for one batch row:
`(cls_mat | token_type_mat)` with `cls_token_type_id = 2`. -/
def token_type_ids_to_mat (token_type_ids : List ℤ) : List (List Bool) :=
  token_type_ids.map (fun a =>
    token_type_ids.map (fun b => ((a == 2) || (b == 2)) || (a == b)))

/-- `inputs_embeds.new_ones([seq_len - 1, seq_len - 1])`. -/
def ones_mat (r c : Nat) : List (List Nat) := List.replicate r (List.replicate c 1)

/-- `F.pad(m, (1, 0, 1, 0))`: one leading column and one leading row, filled
with the default padding value `0`. -/
def pad_top_left (m : List (List Nat)) : List (List Nat) :=
  List.replicate ((m.headD []).length + 1) 0 :: m.map (fun row => 0 :: row)

/-- The `cls_mask` built by `FunnelAttentionStructure.init_attention_inputs`
when `separate_cls` is set. -/
def cls_mask (seq_len : Nat) : List (List Nat) :=
  pad_top_left (ones_mat (seq_len - 1) (seq_len - 1))

/-- `ops.arange(start, stop, -step)` for a positive `step`, as used by
`relative_pos`: the values `start, start - step, ...` strictly above `stop`. -/
def arangeDown (start stop step : ℤ) : List ℤ :=
  (List.range (((start - stop).toNat + (step.toNat - 1)) / step.toNat)).map
    (fun k => start - step * (k : ℤ))

/-- `FunnelAttentionStructure.relative_pos`; passing `none` for `pooled_pos`
means the Python default `pooled_pos = pos`. -/
def relative_pos (pos : List ℤ) (stride : ℤ) (pooled_pos : Option (List ℤ))
    (shift : ℤ) : List ℤ :=
  let pooled := pooled_pos.getD pos
  let ref_point := pooled.headD 0 - pos.headD 0
  let num_remove := shift * (pooled.length : ℤ)
  let max_dist := ref_point + num_remove * stride
  let min_dist := pooled.headD 0 - pos.getLastD 0
  arangeDown max_dist (min_dist - 1) stride

/-- Row-major `ops.reshape` of a matrix from column count `oldCols` to column
count `newCols`: entry `(i, j)` of the result is the entry of the argument at
flat offset `i * newCols + j`. -/
def reshapeRow {α : Type} (oldCols newCols : Nat) (f : Nat → Nat → α) :
    Nat → Nat → α :=
  fun i j => f ((i * newCols + j) / oldCols) ((i * newCols + j) % oldCols)

/-- `_relative_shift_gather` on one `(batch, head)` slice of `positional_attn`
(the reshapes keep the two leading axes): reshape `[seq_len, max_rel_len]` to
`[max_rel_len, seq_len]`, drop the first `shift` rows, reshape to
`[seq_len, max_rel_len - shift]`; the final `[..., :context_len]` truncation
restricts the column index of the result to `j < context_len`. -/
def relative_shift_gather {α : Type} (seq_len max_rel_len context_len shift : Nat)
    (f : Nat → Nat → α) : Nat → Nat → α :=
  let r1 := reshapeRow max_rel_len seq_len f
  let r2 := fun r s => r1 (r + shift) s
  let r3 := reshapeRow seq_len (max_rel_len - shift) r2
  let _ := context_len
  r3

/-- `upsample`: repeat every token `stride` times along the sequence axis (the
class token, when separate, is excluded and reattached in front), then cut to
the target length.  A tensor is a list of feature rows; the `truncate_seq`
branch right-pads with `stride - 1` zero rows as `ops.pad` does. -/
def upsample (x : List (List ℚ)) (stride target_len : Nat)
    (separate_cls truncate_seq : Bool) : List (List ℚ) :=
  if stride = 1 then x
  else
    if separate_cls then
      let cls := x.take 1
      let rest := x.drop 1
      let out := (rest.map (fun row => List.replicate stride row)).flatten
      let out2 := if truncate_seq then
          out ++ List.replicate (stride - 1) (List.replicate (x.headD []).length (0 : ℚ))
        else out
      cls ++ out2.take (target_len - 1)
    else ((x.map (fun row => List.replicate stride row)).flatten).take target_len

/-- The configuration fields that determine sequence lengths and the pooling
multiplier; `numBlocks` is `len(config.block_sizes)`. -/
structure FunnelCfg where
  numBlocks : Nat
  separateCls : Bool
  truncateSeq : Bool
  poolQOnly : Bool

/-- Sequence length produced by `pool_tensor` with `stride=2` (mean, max and
min modes all produce this length) from a sequence of length `L`. -/
def poolLen (separate_cls truncate_seq : Bool) (L : Nat) : Nat :=
  if separate_cls then (min 1 L + (if truncate_seq then L - 1 else L) + 1) / 2
  else (L + 1) / 2

/-- State of `FunnelEncoder.forward` in effect while the layers of block `b`
run, after the pooling updates of block `b` are complete: the hidden sequence
length and the `pooling_mult` counter.  `init_attention_inputs` resets the
counter to 1; a block of positive index pools exactly when the hidden length
exceeds 2 (`separate_cls`) or 1, and the counter is doubled once per pooled
block — by `pre_attention_pooling` when both sides pool, by
`post_attention_pooling` when `pool_q_only`. -/
def encState (cfg : FunnelCfg) (L0 : Nat) : Nat → Nat × Nat
  | 0 => (L0, 1)
  | b + 1 =>
      let st := encState cfg L0 b
      if (if cfg.separateCls then 2 else 1) < st.1 then
        (poolLen cfg.separateCls cfg.truncateSeq st.1, 2 * st.2)
      else st

/-- `pooling_mult` in effect during the first layer of block `b` in
`pool_q_only` mode, where the pooled query attends to the not-yet-pooled
key/value and `post_attention_pooling` has not run yet. -/
def encCrossMult (cfg : FunnelCfg) (L0 b : Nat) : Nat := (encState cfg L0 (b - 1)).2

/-- Sequence length of the encoder's last hidden state. -/
def encFinalLen (cfg : FunnelCfg) (L0 : Nat) : Nat :=
  (encState cfg L0 (cfg.numBlocks - 1)).1

/-- The upsampling stride used by `FunnelDecoder.forward`:
`2 ** (len(config.block_sizes) - 1)`. -/
def decoderStride (cfg : FunnelCfg) : Nat := 2 ^ (cfg.numBlocks - 1)

/-- Sequence length of `FunnelDecoder.forward`'s output: the decoder upsamples
the final hidden state to the first-block target length, and its self-attention
layers preserve the sequence length. -/
def decoderOutLen (cfg : FunnelCfg) (final_len target_len : Nat) : Nat :=
  (upsample (List.replicate final_len [0]) (decoderStride cfg) target_len
    cfg.separateCls cfg.truncateSeq).length

/-- The input validation shared verbatim by `FunnelModel.forward` and
`FunnelBaseModel.forward`, returning the sequence part of `input_shape` for
the accepted input. -/
def funnel_forward_check (input_ids : Option (List ℤ))
    (inputs_embeds : Option (List (List ℚ))) : Except String Nat :=
  match input_ids, inputs_embeds with
  | some _, some _ =>
      .error "You cannot specify both input_ids and inputs_embeds at the same time"
  | some ids, none => .ok ids.length
  | none, some emb => .ok emb.length
  | none, none => .error "You have to specify either input_ids or inputs_embeds"

/-- `FunnelModel.forward` at the sequence-length level: the validation runs
first, and the embedding/encoder/decoder pipeline only runs on a validated
input. -/
def funnelModel_forward (cfg : FunnelCfg) (input_ids : Option (List ℤ))
    (inputs_embeds : Option (List (List ℚ))) : Except String Nat :=
  match funnel_forward_check input_ids inputs_embeds with
  | .error e => .error e
  | .ok L0 => .ok (decoderOutLen cfg (encFinalLen cfg L0) L0)

theorem avgPool2_length : ∀ l : List ℚ, (avgPool2 l).length = (l.length + 1) / 2
  | [] => by simp [avgPool2]
  | [_] => by simp [avgPool2]
  | _ :: _ :: rest => by
      simp only [avgPool2, List.length_cons, avgPool2_length rest]
      omega

theorem pool_tensor_mean_length (separate_cls truncate_seq : Bool) (t : List ℚ) :
    (pool_tensor_mean separate_cls truncate_seq t).length =
      poolLen separate_cls truncate_seq t.length := by
  cases separate_cls <;> cases truncate_seq <;>
    simp [pool_tensor_mean, poolLen, avgPool2_length, List.length_dropLast]

/-- Claim C10: for every tensor `x`, every `target_len` and every combination
of the `separate_cls` and `truncate_seq` flags, `upsample` with `stride = 1`
returns `x` unchanged, even when the sequence length of `x` differs from
`target_len`: no repetition, padding or truncation is applied. -/
theorem upsample_stride_one_identity (x : List (List ℚ)) (target_len : Nat)
    (separate_cls truncate_seq : Bool) :
    upsample x 1 target_len separate_cls truncate_seq = x := by
  simp [upsample]

/-- Claim C5, counterexample: on the length-5 input `[0, 1, 2, 3, 4]` with
`separate_cls=True`, `truncate_seq=False`, mean mode and stride 2, the claim's
conjunction fails: the output is `[0, 3/2, 7/2]`, whose last entry `7/2` is
the mean of the window over input indices 3 and 4, not the lone input index 4
(whose value is `4`). -/
theorem pool_tensor_mean_last_window_counterexample :
    ¬ ((pool_tensor_mean true false [0, 1, 2, 3, 4]).length = 3 ∧
       (pool_tensor_mean true false [0, 1, 2, 3, 4]).headD 0 = 0 ∧
       (pool_tensor_mean true false [0, 1, 2, 3, 4]).getLastD 0 = 4) := by
  norm_num [pool_tensor_mean, avgPool2]

/-- Claim C5 (amended): for every scalar sequence of length 5 with
`separate_cls=True` and `truncate_seq=False`, mean pooling with stride 2
returns length 3 = 1 + ceil(4/2) with the class token unchanged at position 0,
and the last output entry is the mean of the window over input indices 3 and 4
(the class token is duplicated in front, so the length-6 padded sequence splits
into three full windows and no partial window arises). -/
theorem pool_tensor_mean_len5_formula (a b c d e : ℚ) :
    pool_tensor_mean true false [a, b, c, d, e] = [a, (b + c) / 2, (d + e) / 2] := by
  simp only [pool_tensor_mean, List.take, if_true, List.cons_append, List.nil_append,
    avgPool2, ite_true]
  have h : (a + a) / 2 = a := by ring
  rw [h]

/-- Claim C6 (a code bug): `pool_tensor` applied to a non-empty tuple or list
of tensors never terminates, whatever the recursion fuel, because the
recursive call is on the whole sequence instead of its elements; the claim
(and the upstream implementation this file ports) expects the element-wise
result. -/
theorem pool_tensor_seq_diverges (separate_cls truncate_seq : Bool)
    (ts : List PTensor) (h : ts ≠ []) :
    ∀ fuel, pool_tensor_steps separate_cls truncate_seq fuel (.seq ts) = none := by
  obtain ⟨t, rest, rfl⟩ := List.exists_cons_of_ne_nil h
  intro fuel
  induction fuel with
  | zero => rfl
  | succ n ih => simp [pool_tensor_steps, collectOptions, ih]

/-- Claim C6, witness: a concrete one-element list of tensors on which the
recursion exhausts any amount of fuel. -/
theorem pool_tensor_seq_diverges_witness :
    pool_tensor_steps true false 100 (.seq [.leaf [1, 2, 3, 4, 5]]) = none :=
  pool_tensor_seq_diverges true false [.leaf [1, 2, 3, 4, 5]] (by simp) 100

/-- Claim C9: both `FunnelModel.forward` and `FunnelBaseModel.forward` start
with the same validation: supplying both `input_ids` and `inputs_embeds`, or
neither, is a `ValueError` raised before any embedding or encoder computation
(the pipeline only runs on the validated input), and supplying exactly one of
the two raises no such error. -/
theorem forward_input_validation :
    (∀ (cfg : FunnelCfg) (ids : List ℤ) (emb : List (List ℚ)),
        funnelModel_forward cfg (some ids) (some emb) =
          .error "You cannot specify both input_ids and inputs_embeds at the same time") ∧
    (∀ cfg : FunnelCfg, funnelModel_forward cfg none none =
        .error "You have to specify either input_ids or inputs_embeds") ∧
    (∀ (cfg : FunnelCfg) (ids : List ℤ), ∃ n,
        funnelModel_forward cfg (some ids) none = .ok n) ∧
    (∀ (cfg : FunnelCfg) (emb : List (List ℚ)), ∃ n,
        funnelModel_forward cfg none (some emb) = .ok n) :=
  ⟨fun _ _ _ => rfl, fun _ => rfl, fun _ _ => ⟨_, rfl⟩, fun _ _ => ⟨_, rfl⟩⟩

/-- Claim C7: the token-type matrix entry at `(i, j)` is true exactly when the
two positions share a segment id, or position `i` has the class-token type id
2, or position `j` does; for segment ids `[2, 0, 0, 1, 1]`, row and column 0
are all true, positions 1-2 are true among themselves and false versus 3-4,
and positions 3-4 are true among themselves. -/
theorem token_type_mat_spec :
    (∀ (ids : List ℤ) (i j : Nat), i < ids.length → j < ids.length →
        ((((token_type_ids_to_mat ids).getD i []).getD j false) = true ↔
          (ids.getD i 0 = ids.getD j 0 ∨ ids.getD i 0 = 2 ∨ ids.getD j 0 = 2))) ∧
    token_type_ids_to_mat [2, 0, 0, 1, 1] =
      [[true, true, true, true, true],
       [true, true, true, false, false],
       [true, true, true, false, false],
       [true, false, false, true, true],
       [true, false, false, true, true]] := by
  constructor
  · intro ids i j hi hj
    simp [token_type_ids_to_mat, List.getD_eq_getElem?_getD, List.getElem?_map,
      List.getElem?_eq_getElem hi, List.getElem?_eq_getElem hj]
    tauto
  · decide

/-- Claim C7, witness: the general characterization instantiated for segment
ids `[2, 0, 0, 1, 1]` at the pair of positions 1 and 3 (segments 0 and 1). -/
theorem token_type_mat_spec_witness :
    ((((token_type_ids_to_mat [2, 0, 0, 1, 1]).getD 1 []).getD 3 false) = true ↔
      (([2, 0, 0, 1, 1] : List ℤ).getD 1 0 = ([2, 0, 0, 1, 1] : List ℤ).getD 3 0 ∨
       ([2, 0, 0, 1, 1] : List ℤ).getD 1 0 = 2 ∨
       ([2, 0, 0, 1, 1] : List ℤ).getD 3 0 = 2)) :=
  token_type_mat_spec.1 [2, 0, 0, 1, 1] 1 3 (by decide) (by decide)

/-- Claim C8, counterexample: at `seq_len = 2`, the claim (a `[1, 1]` block of
ones padded with a leading row and a leading column of ones, hence the
all-ones 2x2 matrix) fails: `F.pad` pads with zeros, giving `[[0, 0], [0, 1]]`. -/
theorem cls_mask_ones_counterexample :
    ¬ (cls_mask 2 = [[1, 1], [1, 1]]) := by
  decide

/-- Claim C8 (amended): for every `seq_len` of at least 1, the class-token
mask is the `seq_len x seq_len` matrix whose entry at `(i, j)` is 0 when
`i = 0` or `j = 0` and 1 otherwise: a `[seq_len-1, seq_len-1]` block of ones
padded with a leading row and a leading column of ZEROS (the default fill of
`F.pad`), so that multiplying by it zeroes the positional and segment scores
on class-token rows and columns. -/
theorem cls_mask_zero_padded (n : Nat) (h : 1 ≤ n) :
    cls_mask n = (List.range n).map (fun i => (List.range n).map
      (fun j => if i = 0 ∨ j = 0 then (0 : Nat) else 1)) := by
  obtain ⟨m, rfl⟩ : ∃ m, n = m + 1 := ⟨n - 1, by omega⟩
  have hinner : (fun i => (List.range (m + 1)).map
      (fun j => if i = 0 ∨ j = 0 then (0 : Nat) else 1)) =
      (fun i => if i = 0 then List.replicate (m + 1) (0 : Nat)
        else 0 :: List.replicate m 1) := by
    funext i
    cases i with
    | zero => simp
    | succ k =>
        rw [List.range_succ_eq_map, List.map_cons, List.map_map]
        simp [Function.comp_def]
  rw [hinner, List.range_succ_eq_map, List.map_cons, List.map_map]
  simp only [Function.comp_def, Nat.succ_eq_add_one, if_pos rfl, Nat.succ_ne_zero,
    if_neg (Nat.succ_ne_zero _)]
  simp only [List.map_const', List.length_range, reduceIte]
  cases m with
  | zero => simp [cls_mask, ones_mat, pad_top_left]
  | succ k =>
      simp [cls_mask, ones_mat, pad_top_left, List.map_replicate, List.replicate_succ]

/-- Claim C8, witness: the amended characterization evaluated at
`seq_len = 3`. -/
theorem cls_mask_zero_padded_witness :
    cls_mask 3 = (List.range 3).map (fun i => (List.range 3).map
      (fun j => if i = 0 ∨ j = 0 then (0 : Nat) else 1)) :=
  cls_mask_zero_padded 3 (by decide)

/-- Claim C3, counterexample: the unconditional statement fails for short
sequences, where the encoder skips pooling.  With `separate_cls`, two blocks
and an input of sequence length 2, block 1 does not pool (its hidden length 2
is not above the threshold 2), so `pooling_mult` in effect at block 1 is 1,
not `2 ^ 1`. -/
theorem pooling_mult_claim_counterexample :
    ¬ ((encState ⟨2, true, false, false⟩ 2 1).2 = 2 ^ 1) := by
  decide

/-- Claim C3 (amended): whenever every block boundary actually pools — the
hidden length entering each block of positive index exceeds 2 when
`separate_cls`, else 1 — the `pooling_mult` counter (reset to 1 by
`init_attention_inputs`, doubled once per pooled block: in
`pre_attention_pooling` when both sides pool, in `post_attention_pooling`
when `pool_q_only`) equals `2 ^ b` while block `b`'s layers run; during the
pooled-query/unpooled-key cross attention (the first layer of block `b` in
`pool_q_only` mode) it still holds its previous value `2 ^ (b - 1)`; and the
decoder's upsampling stride is `2 ^ (num_blocks - 1)`. -/
theorem pooling_mult_powers (cfg : FunnelCfg) (L0 : Nat)
    (h : ∀ b, b < cfg.numBlocks - 1 →
      (if cfg.separateCls then 2 else 1) < (encState cfg L0 b).1) :
    (∀ b, b < cfg.numBlocks → (encState cfg L0 b).2 = 2 ^ b) ∧
    (∀ b, 1 ≤ b → b < cfg.numBlocks → encCrossMult cfg L0 b = 2 ^ (b - 1)) ∧
    decoderStride cfg = 2 ^ (cfg.numBlocks - 1) := by
  have main : ∀ b, b < cfg.numBlocks → (encState cfg L0 b).2 = 2 ^ b := by
    intro b
    induction b with
    | zero => intro _; rfl
    | succ k ih =>
        intro hk
        have hflag := h k (by omega)
        have hmult := ih (by omega)
        simp only [encState, if_pos hflag]
        rw [hmult, pow_succ]
        ring
  refine ⟨main, fun b hb1 hb2 => ?_, rfl⟩
  have hprev := main (b - 1) (by omega)
  simpa [encCrossMult] using hprev

/-- Claim C3, witness: the amended statement instantiated on a two-block
`pool_q_only` configuration with input length 9, at block 1. -/
theorem pooling_mult_powers_witness :
    (encState ⟨2, true, false, true⟩ 9 1).2 = 2 ^ 1 ∧
    encCrossMult ⟨2, true, false, true⟩ 9 1 = 2 ^ 0 ∧
    decoderStride ⟨2, true, false, true⟩ = 2 ^ 1 := by
  have T := pooling_mult_powers ⟨2, true, false, true⟩ 9 (by decide)
  exact ⟨T.1 1 (by decide), T.2.1 1 (by decide) (by decide), T.2.2⟩

/-- Claim C4, counterexample: with `num_blocks = 2` and `block_sizes = [2, 2]`
only block 1 pools, so an input of sequence length 9 leaves the encoder at
sequence length 5 (9 to 5 under one ceiling pooling step), not 3 as claimed
(here for the `truncate_seq=False`, `pool_q_only=False` instance of the
claimed configuration). -/
theorem encoder_decoder_len_claim_counterexample :
    ¬ (encFinalLen ⟨2, true, false, false⟩ 9 = 3) := by
  decide

/-- Claim C4 (amended): for a two-block, `separate_cls=True` configuration
(either `truncate_seq` setting, either pooling layout; the attention type does
not affect the lengths), a forward pass of sequence length 9 produces an
encoder last hidden state of sequence length 5 (9 to 5 under ceiling pooling
with the class token preserved, pooling happening once at the single
block boundary), and the decoder output restores sequence length 9. -/
theorem encoder_decoder_len_9_5_9 :
    ∀ truncate_seq pool_q_only : Bool,
      encFinalLen ⟨2, true, truncate_seq, pool_q_only⟩ 9 = 5 ∧
      decoderOutLen ⟨2, true, truncate_seq, pool_q_only⟩
        (encFinalLen ⟨2, true, truncate_seq, pool_q_only⟩ 9) 9 = 9 := by
  decide

/-- Claim C2, counterexample: with `pos = [0, 1, 2, 3]`, `stride = 1`,
default `pooled_pos = pos` and `shift = 1`, `relative_pos` returns
`[4, 3, 2, 1, 0, -1, -2, -3]` — 8 elements, not `len(pooled_pos) = 4`. -/
theorem relative_pos_length_counterexample :
    ¬ ((relative_pos [0, 1, 2, 3] 1 none 1).length = ([0, 1, 2, 3] : List ℤ).length) := by
  decide

/-- Claim C2 (amended): for every `pos` whose first element does not exceed
its last (in particular every strictly increasing `pos`), every non-empty
`pooled_pos`, every `stride` of at least 1 and every `shift` of at least 1,
`relative_pos` returns the descending arithmetic sequence with step `-stride`
starting at `max_dist = (pooled_pos[0] - pos[0]) + stride * shift *
len(pooled_pos)`, of exactly `shift * len(pooled_pos) +
(pos[-1] - pos[0]) / stride + 1` elements (not `len(pooled_pos)` of them);
its values stay at or above `min_dist = pooled_pos[0] - pos[-1]`, and the last
one is `min_dist + ((pos[-1] - pos[0]) mod stride)`, so `min_dist` itself is
reached exactly when `stride` divides `pos[-1] - pos[0]` (always at
`stride = 1`). -/
theorem relative_pos_arith_sequence (pos pooled : List ℤ) (stride shift : ℤ)
    (hs : 1 ≤ stride) (hsh : 1 ≤ shift)
    (hspan : pos.headD 0 ≤ pos.getLastD 0) :
    relative_pos pos stride (some pooled) shift =
      (List.range (shift.toNat * pooled.length +
          (pos.getLastD 0 - pos.headD 0).toNat / stride.toNat + 1)).map
        (fun k => pooled.headD 0 - pos.headD 0 +
          shift * (pooled.length : ℤ) * stride - stride * (k : ℤ)) := by
  simp only [relative_pos, arangeDown, Option.getD_some]
  congr 2
  obtain ⟨st, hst⟩ : ∃ st : ℕ, (st : ℤ) = stride :=
    ⟨stride.toNat, Int.toNat_of_nonneg (by omega)⟩
  obtain ⟨sh, hsh2⟩ : ∃ sh : ℕ, (sh : ℤ) = shift :=
    ⟨shift.toNat, Int.toNat_of_nonneg (by omega)⟩
  obtain ⟨n, hn⟩ : ∃ n : ℕ, (n : ℤ) = pos.getLastD 0 - pos.headD 0 :=
    ⟨(pos.getLastD 0 - pos.headD 0).toNat, Int.toNat_of_nonneg (by omega)⟩
  have hstn : stride.toNat = st := by omega
  have hshn : shift.toNat = sh := by omega
  have hnn : (pos.getLastD 0 - pos.headD 0).toNat = n := by omega
  have hkey : pooled.headD 0 - pos.headD 0 + shift * (pooled.length : ℤ) * stride -
      (pooled.headD 0 - pos.getLastD 0 - 1) =
      ((n + sh * pooled.length * st + 1 : ℕ) : ℤ) := by
    rw [← hst, ← hsh2]
    push_cast
    omega
  rw [hkey, Int.toNat_natCast, hstn, hshn, hnn]
  have hst1 : 1 ≤ st := by omega
  have h3 : st * (sh * pooled.length + 1) = sh * pooled.length * st + st := by ring
  have h2 : n + sh * pooled.length * st + 1 + (st - 1) =
      n + st * (sh * pooled.length + 1) := by omega
  rw [h2, Nat.add_mul_div_left _ _ (by omega : 0 < st)]
  ring_nf

/-- Claim C2, witness: the amended characterization instantiated at
`pos = pooled_pos = [0, 1, 2, 3]`, `stride = 1`, `shift = 1`, where it
evaluates to the 8-element descending sequence from 4 down to -3. -/
theorem relative_pos_arith_sequence_witness :
    relative_pos [0, 1, 2, 3] 1 (some [0, 1, 2, 3]) 1 =
      [4, 3, 2, 1, 0, -1, -2, -3] := by
  have h := relative_pos_arith_sequence [0, 1, 2, 3] [0, 1, 2, 3] 1 1
    (by decide) (by decide) (by decide)
  rw [h]
  decide

/-- Claim C1, counterexample: with `seq_len = context_len = 4`,
`max_rel_len = 2 * 4 + 1 - 1 = 8` and `shift = 1`, on the input whose
`(i, t)` entry is `10 * i + t`, the gathered entry at query index 0 and key
index 1 is the input entry at relative-offset row 5 = `(1 - 0) + 4`, not the
claimed row `(0 - 1) + 4 = 3`. -/
theorem relative_shift_gather_claim_counterexample :
    ¬ (relative_shift_gather 4 8 4 1 (fun i t : Nat => 10 * i + t) 0 1 =
        (fun i t : Nat => 10 * i + t) 0 3) := by
  decide

/-- Claim C1 (amended): for `shift = 1` (the case the attention layer uses
exactly when the query and key lengths agree, so `seq_len = context_len = C`
and `max_rel_len = 2 * C`), the output of `_relative_shift_gather` at indices
`(b, h, i, j)` with `i < C` and `j < C` equals the input at relative-offset
row `(j - i) + context_len` — not `(i - j) + context_len`; since the offset
rows hold the relative positions in descending order, that row carries the
relative position `(i - j) * stride`.  This holds in particular on the
synthetic case `seq_len = 4`, `context_len = 4`. -/
theorem relative_shift_gather_index_formula {α : Type} (f : Nat → Nat → α)
    (C i j : Nat) (hi : i < C) (hj : j < C) :
    relative_shift_gather C (2 * C) C 1 f i j = f i (C + j - i) := by
  simp only [relative_shift_gather, reshapeRow]
  have hfl := Nat.div_add_mod (i * (2 * C - 1) + j) C
  have h1 : i * (2 * C - 1) + i = i * (2 * C) := by
    have h0 : 2 * C - 1 + 1 = 2 * C := by omega
    calc i * (2 * C - 1) + i = i * (2 * C - 1 + 1) := by ring
      _ = i * (2 * C) := by rw [h0]
  have h2 : ((i * (2 * C - 1) + j) / C + 1) * C =
      C * ((i * (2 * C - 1) + j) / C) + C := by ring
  have h3 : i * (2 * C) = 2 * C * i := by ring
  have key : ((i * (2 * C - 1) + j) / C + 1) * C + (i * (2 * C - 1) + j) % C =
      (C + j - i) + 2 * C * i := by omega
  rw [key]
  have ht : C + j - i < 2 * C := by omega
  rw [Nat.add_mul_div_left _ _ (by omega : 0 < 2 * C),
    Nat.add_mul_mod_self_left, Nat.div_eq_of_lt ht, Nat.mod_eq_of_lt ht]
  simp

/-- Claim C1, witness: the amended index formula instantiated at `C = 4`,
`i = 2`, `j = 3` on the input whose `(i, t)` entry is `10 * i + t`. -/
theorem relative_shift_gather_index_formula_witness :
    relative_shift_gather 4 (2 * 4) 4 1 (fun i t : Nat => 10 * i + t) 2 3 =
      (fun i t : Nat => 10 * i + t) 2 (4 + 3 - 2) :=
  relative_shift_gather_index_formula (fun i t : Nat => 10 * i + t) 4 2 3
    (by decide) (by decide)
